import Mathlib

/-!
Shallow embedding of the OpenAI vector-store client layer
(`src/lib/openaiClient.ts`) of the knowledge-base app.

JSON values are modelled by the inductive `Json` (numbers as `Int`; the
claims never involve fractional numbers).  A JavaScript expression that may
be `undefined` is modelled as `Option Json` (`none` = `undefined`), so the
nullish-coalescing operator `??` becomes `nn`.  A thrown JavaScript
exception is the `Except.error` case; every client operation therefore has
result type `Except String (ApiResult _)` paired with the ordered list of
HTTP requests it issued.  The network is a pure oracle `Net : Request →
HttpResponse`; a response body that is not valid JSON is `body = none`
(`res.json()` rejects on it).  `Date.now()` and `crypto.randomUUID()` are
passed in explicitly (`now`, `uuid`).
-/

/-- A JSON value (numbers restricted to integers). -/
inductive Json where
  | null
  | bool (b : Bool)
  | num (n : Int)
  | str (s : String)
  | arr (elems : List Json)
  | obj (fields : List (String × Json))

/-- Whether a value is JSON `null`. -/
def Json.isNull : Json → Bool
  | .null => true
  | _ => false

/-- First binding of `key` in an object's field list (JS objects have unique
keys, so first-match lookup is faithful). -/
def lookupField : List (String × Json) → String → Option Json
  | [], _ => none
  | (k, v) :: rest, key => if k = key then some v else lookupField rest key

/-- JS property read `v[key]` on a value already known not to be `null`:
objects look the key up, every other value yields `undefined` (`none`).
Callers guard the `null` case (a JS `TypeError`) explicitly. -/
def jsGetF : Json → String → Option Json
  | .obj fs, key => lookupField fs key
  | _, _ => none

/-- Lookup of `key` whose value is a string, mirroring
`key in v && typeof v[key] === "string"`. -/
def lookupStr (fs : List (String × Json)) (key : String) : Option String :=
  match lookupField fs key with
  | some (.str s) => some s
  | _ => none

/-- JS nullish coalescing `a ?? b`: `b` when `a` is `undefined` or `null`. -/
def nn (a b : Option Json) : Option Json :=
  match a with
  | none => b
  | some .null => b
  | some v => some v

/-- `Array.prototype.join` semantics: empty list renders as `""`, a single
element stands alone, otherwise elements are separated by `sep`. -/
def joinSep (sep : String) : List String → String
  | [] => ""
  | [x] => x
  | x :: xs => x ++ sep ++ joinSep sep xs

mutual
/-- String conversion applied by JS template literals (`String(v)`). -/
def jsToString : Json → String
  | .null => "null"
  | .bool b => if b then "true" else "false"
  | .num n => toString n
  | .str s => s
  | .arr xs => joinSep "," (jsToStringElems xs)
  | .obj _ => "[object Object]"
/-- Array elements under `Array.prototype.toString`: `null` renders empty. -/
def jsToStringElems : List Json → List String
  | [] => []
  | .null :: rest => "" :: jsToStringElems rest
  | x :: rest => jsToString x :: jsToStringElems rest
end

/-- Interpolation of a possibly-`undefined` value into a template literal. -/
def jsTemplate : Option Json → String
  | none => "undefined"
  | some j => jsToString j

mutual
/-- `JSON.stringify` on plain JSON data (string escaping not modelled; no
claim depends on the rendered text). -/
def jsonStringify : Json → String
  | .null => "null"
  | .bool b => if b then "true" else "false"
  | .num n => toString n
  | .str s => "\"" ++ s ++ "\""
  | .arr xs => "[" ++ joinSep "," (jsonStringifyElems xs) ++ "]"
  | .obj fs => "\x7b" ++ joinSep "," (jsonStringifyFields fs) ++ "\x7d"
def jsonStringifyElems : List Json → List String
  | [] => []
  | x :: rest => jsonStringify x :: jsonStringifyElems rest
def jsonStringifyFields : List (String × Json) → List String
  | [] => []
  | (k, v) :: rest => ("\"" ++ k ++ "\":" ++ jsonStringify v) :: jsonStringifyFields rest
end

mutual
/-- The client's `toText` (openaiClient.ts lines 169-185): defensive
conversion of an arbitrary JSON value to display text.  Objects try, in
order, a string `text` field, a string `output_text` field, a string
`summary` field, then recurse into a `content` field, else are
stringified.  (`JSON.stringify` never throws on acyclic JSON data, so the
`"[unreadable content]"` branch of the source is unreachable here.) -/
def toText : Json → String
  | .null => ""
  | .bool b => if b then "true" else "false"
  | .num n => toString n
  | .str s => s
  | .arr xs => joinSep "\n" (toTextElems xs)
  | .obj fs =>
      match lookupStr fs "text" with
      | some s => s
      | none =>
        match lookupStr fs "output_text" with
        | some s => s
        | none =>
          match lookupStr fs "summary" with
          | some s => s
          | none => contentText fs fs
/-- Scan for a `content` field (the `"content" in value` branch of
`toText`); when absent the whole object is stringified. -/
def contentText (orig : List (String × Json)) : List (String × Json) → String
  | [] => jsonStringify (.obj orig)
  | (k, v) :: rest => if k = "content" then toText v else contentText orig rest
/-- `toText` mapped over an array's elements. -/
def toTextElems : List Json → List String
  | [] => []
  | x :: rest => toText x :: toTextElems rest
end

/-- `toText` applied to a possibly-`undefined` value (`toText(undefined)`
is `""` in the source, the `value === undefined` branch). -/
def toTextU : Option Json → String
  | none => ""
  | some j => toText j

/-- The caller-supplied configuration (`src/types.ts`). -/
structure Settings where
  apiKey : String
  model : String
  vectorStoreId : String

/-- One document attached to the vector store.  Field values are
`Option Json` because the source assembles them from untyped remote JSON:
`none` is JavaScript `undefined` (e.g. a listing item without an `id`). -/
structure KnowledgeFile where
  id : Option Json
  filename : Option Json
  bytes : Option Json
  status : Option Json
  created_at : Option Json
  metadata : Option Json

/-- One chat turn.  The assistant reply built by `askQuestion` carries the
remote `id` field as-is (hence `Option Json`) with the generated UUID as
fallback. -/
structure ChatMessage where
  id : Option Json
  role : String
  content : String
  createdAt : Int

/-- The tagged result union every operation returns.  The failure payload
is the raw JS value assigned to `error` (a string on every path except a
non-string `body.error.message`, which the source forwards unchanged). -/
inductive ApiResult (α : Type) where
  | ok (data : α)
  | err (error : Json)

/-- An HTTP request, identified by URL and method (request bodies carry no
information any claim depends on). -/
structure Request where
  url : String
  method : String
deriving DecidableEq

/-- An HTTP response: status line plus body; `body = none` when the body is
not valid JSON (so `res.json()` rejects). -/
structure HttpResponse where
  status : Nat
  statusText : String
  body : Option Json

/-- `Response.ok`: status in the 2xx range. -/
def HttpResponse.isOk (r : HttpResponse) : Bool :=
  decide (200 ≤ r.status) && decide (r.status < 300)

/-- The network oracle: what response each request gets. -/
def Net : Type := Request → HttpResponse

/-- JavaScript `String.prototype.trim` over the characters. -/
def jsTrim (s : String) : String :=
  ⟨((s.data.dropWhile Char.isWhitespace).reverse.dropWhile Char.isWhitespace).reverse⟩

def API_BASE : String := "https://api.openai.com/v1"

/-- `body.error?.message` of a parsed error body, with JS semantics: any
shape mismatch (non-object body, absent or primitive `error`, absent or
`null` `message`) yields nothing; a `null` body's `TypeError` is caught by
the surrounding `try` with the same effect. -/
def errMessageField (body : Json) : Option Json :=
  match body with
  | .obj fs =>
    match lookupField fs "error" with
    | some (.obj efs) =>
      match lookupField efs "message" with
      | some .null => none
      | some v => some v
      | none => none
    | _ => none
  | _ => none

/-- `handleResponse` (openaiClient.ts lines 17-31).  On a 2xx response the
body is parsed **outside any try**, so an unparseable body is a thrown
`SyntaxError` (`Except.error`).  On a non-2xx response the error message is
`body.error?.message` when extractable, else `"<status> <statusText>"`;
parse failures there are swallowed. -/
def handleResponse (res : HttpResponse) : Except String (ApiResult Json) :=
  if res.isOk then
    match res.body with
    | some json => .ok (.ok json)
    | none => .error "SyntaxError: Unexpected end of JSON input"
  else
    let generic : Json := .str (toString res.status ++ " " ++ res.statusText)
    match res.body with
    | some body => .ok (.err ((errMessageField body).getD generic))
    | none => .ok (.err generic)

/-- The request issued by `createVectorStore`. -/
def cvsReq : Request := ⟨API_BASE ++ "/vector_stores", "POST"⟩

/-- `createVectorStore` (lines 33-44): blank trimmed name or missing API
key are **thrown** (no `vectorStoreId` check); otherwise one POST whose
response goes through `handleResponse`. -/
def createVectorStore (net : Net) (name : String) (settings : Settings) :
    Except String (ApiResult Json) × List Request :=
  if jsTrim name = "" then (.error "Vector store name is required", [])
  else if settings.apiKey = "" then (.error "API key required", [])
  else
    match handleResponse (net cvsReq) with
    | .error e => (.error e, [cvsReq])
    | .ok r => (.ok r, [cvsReq])

/-- The primary listing request of `listFiles`. -/
def listReq (s : Settings) : Request :=
  ⟨API_BASE ++ "/vector_stores/" ++ s.vectorStoreId ++ "/files?limit=100", "GET"⟩

/-- The secondary per-file detail request (`GET /files/...`). -/
def detailReq (fileId : String) : Request :=
  ⟨API_BASE ++ "/files/" ++ fileId, "GET"⟩

/-- The detail request built for a listing item:
`/files/${item.file_id ?? item.id}` (template-literal coercion). -/
def itemDetailReq (item : Json) : Request :=
  detailReq (jsTemplate (nn (jsGetF item "file_id") (jsGetF item "id")))

/-- The `KnowledgeFile` assembled from a primary listing association
(lines 62-69), before enrichment.  Defined for non-`null` items; a `null`
item throws at the first property read and is handled by `listItem`. -/
def primaryFile (item : Json) (now : Int) : KnowledgeFile :=
  { id := jsGetF item "id"
    filename := nn (jsGetF item "filename") (nn (jsGetF item "file_id") (jsGetF item "id"))
    bytes := nn (jsGetF item "usage_bytes") (some (.num 0))
    status := nn (jsGetF item "status") (some (.str "unknown"))
    created_at := nn (jsGetF item "created_at") (some (.num now))
    metadata := nn (jsGetF item "metadata") (some (.obj [])) }

/-- Best-effort enrichment of one file from its detail response
(lines 71-87).  The whole block sits in a `try`, so a non-2xx response, an
unparseable body, and a `null` body (whose property reads throw) all leave
the primary fields untouched.  Only `filename`, `bytes`, `metadata` and
`created_at` are ever overwritten. -/
def enrich (file : KnowledgeFile) (detailRes : HttpResponse) : KnowledgeFile :=
  if detailRes.isOk then
    match detailRes.body with
    | none => file
    | some .null => file
    | some detail =>
      { file with
        filename := nn (jsGetF detail "filename") file.filename
        bytes := nn (jsGetF detail "bytes") file.bytes
        metadata := nn (jsGetF detail "metadata") file.metadata
        created_at := nn (jsGetF detail "created_at") file.created_at }
  else file

/-- The fully processed file for one listing item: primary fields then
enrichment from whatever the oracle answers the detail request. -/
def itemFile (net : Net) (now : Int) (item : Json) : KnowledgeFile :=
  enrich (primaryFile item now) (net (itemDetailReq item))

/-- One iteration of the `parsed.data.data.map` callback: a `null` item
throws a `TypeError` at `item.id` before any fetch; otherwise the detail
request is issued and the enriched file produced. -/
def listItem (net : Net) (now : Int) (item : Json) :
    Except String (KnowledgeFile × Request) :=
  if item.isNull then .error "TypeError: Cannot read properties of null"
  else .ok (itemFile net now item, itemDetailReq item)

/-- `Promise.all` over the listing items (the model sequentialises the
fan-out; `Promise.all` itself guarantees the positional order of the
results, which is what the claims are about). -/
def processItems (net : Net) (now : Int) :
    List Json → Except String (List KnowledgeFile × List Request)
  | [] => .ok ([], [])
  | item :: rest =>
    match listItem net now item with
    | .error e => .error e
    | .ok (f, r) =>
      match processItems net now rest with
      | .error e => .error e
      | .ok (fs, rs) => .ok (f :: fs, r :: rs)

/-- `listFiles` (lines 46-94).  `ensureSettings` throws are caught and
returned as failures before any request; then the primary listing is
fetched and `parsed.data.data.map` is run — a body on which `.data.map`
is not callable (null body, no `data` field, non-array `data`) throws. -/
def listFiles (net : Net) (settings : Settings) (now : Int) :
    Except String (ApiResult (List KnowledgeFile)) × List Request :=
  if settings.apiKey = "" then (.ok (.err (.str "Missing API key")), [])
  else if settings.vectorStoreId = "" then (.ok (.err (.str "Missing vector store id")), [])
  else
    let req := listReq settings
    match handleResponse (net req) with
    | .error e => (.error e, [req])
    | .ok (.err e) => (.ok (.err e), [req])
    | .ok (.ok body) =>
      if body.isNull then (.error "TypeError: Cannot read properties of null", [req])
      else
        match jsGetF body "data" with
        | some (.arr items) =>
          match processItems net now items with
          | .error e => (.error e, [req])
          | .ok (files, dreqs) => (.ok (.ok files), req :: dreqs)
        | _ => (.error "TypeError: map is not a function", [req])

/-- The raw-file registration request of `uploadFile` (`POST /files`). -/
def filesReq : Request := ⟨API_BASE ++ "/files", "POST"⟩

/-- The attach-to-store request of `uploadFile`. -/
def attachReq (s : Settings) : Request :=
  ⟨API_BASE ++ "/vector_stores/" ++ s.vectorStoreId ++ "/files", "POST"⟩

/-- The local file handed to `uploadFile` (its `name` and `size`). -/
structure FileInfo where
  name : String
  size : Int

/-- `uploadFile` (lines 96-135): register the raw file, then attach it.
Each step's failure is returned as-is; a `null` 2xx body throws at the
`uploaded.data.id` / `attached.data.id` property reads. -/
def uploadFile (net : Net) (settings : Settings) (f : FileInfo) (now : Int) :
    Except String (ApiResult KnowledgeFile) × List Request :=
  if settings.apiKey = "" then (.ok (.err (.str "Missing API key")), [])
  else if settings.vectorStoreId = "" then (.ok (.err (.str "Missing vector store id")), [])
  else
    match handleResponse (net filesReq) with
    | .error e => (.error e, [filesReq])
    | .ok (.err e) => (.ok (.err e), [filesReq])
    | .ok (.ok uploadedBody) =>
      if uploadedBody.isNull then (.error "TypeError: Cannot read properties of null", [filesReq])
      else
        let areq := attachReq settings
        match handleResponse (net areq) with
        | .error e => (.error e, [filesReq, areq])
        | .ok (.err e) => (.ok (.err e), [filesReq, areq])
        | .ok (.ok attachedBody) =>
          if attachedBody.isNull then (.error "TypeError: Cannot read properties of null", [filesReq, areq])
          else
            let kf : KnowledgeFile :=
              { id := nn (jsGetF attachedBody "id") (jsGetF uploadedBody "id")
                filename := some (.str f.name)
                bytes := nn (jsGetF attachedBody "usage_bytes") (some (.num f.size))
                status := nn (jsGetF attachedBody "status") (some (.str "in_progress"))
                created_at := nn (jsGetF attachedBody "created_at") (some (.num now))
                metadata := none }
            (.ok (.ok kf), [filesReq, areq])

/-- The delete request of `deleteFile`. -/
def delReq (s : Settings) (fileId : String) : Request :=
  ⟨API_BASE ++ "/vector_stores/" ++ s.vectorStoreId ++ "/files/" ++ fileId, "DELETE"⟩

/-- `deleteFile` (lines 137-155): one DELETE; success maps to `true`, the
parsed body itself is never inspected. -/
def deleteFile (net : Net) (settings : Settings) (fileId : String) :
    Except String (ApiResult Bool) × List Request :=
  if settings.apiKey = "" then (.ok (.err (.str "Missing API key")), [])
  else if settings.vectorStoreId = "" then (.ok (.err (.str "Missing vector store id")), [])
  else
    let req := delReq settings fileId
    match handleResponse (net req) with
    | .error e => (.error e, [req])
    | .ok (.err e) => (.ok (.err e), [req])
    | .ok (.ok _) => (.ok (.ok true), [req])

/-- `replaceFile` (lines 157-167): upload first; only on upload success is
the delete awaited, its `ApiResult` discarded — but a delete **throw**
(2xx body that fails to parse) propagates, since the `await` is not
guarded. -/
def replaceFile (net : Net) (settings : Settings) (existingFileId : String)
    (nextFile : FileInfo) (now : Int) :
    Except String (ApiResult KnowledgeFile) × List Request :=
  match uploadFile net settings nextFile now with
  | (.error e, reqs) => (.error e, reqs)
  | (.ok (.err e), reqs) => (.ok (.err e), reqs)
  | (.ok (.ok kf), reqs) =>
    match deleteFile net settings existingFileId with
    | (.error e, dreqs) => (.error e, reqs ++ dreqs)
    | (.ok _, dreqs) => (.ok (.ok kf), reqs ++ dreqs)

/-- The chat request of `askQuestion` (`POST /responses`). -/
def askReq : Request := ⟨API_BASE ++ "/responses", "POST"⟩

/-- The `entry.type === "message"`-style comparison used inside
`Array.prototype.find` callbacks on a non-`null` element. -/
def typeTag (tag : String) (e : Json) : Bool :=
  match jsGetF e "type" with
  | some (.str t) => t = tag
  | _ => false

/-- The guarded callback itself: reading `.type` off `null` throws. -/
def typeIs (tag : String) (e : Json) : Except String Bool :=
  if e.isNull then .error "TypeError: Cannot read properties of null"
  else .ok (typeTag tag e)

/-- `Array.prototype.find` with a callback that may throw; stops at the
first match, so later elements are never touched. -/
def findE (p : Json → Except String Bool) : List Json → Except String (Option Json)
  | [] => .ok none
  | x :: xs =>
    match p x with
    | .error e => .error e
    | .ok true => .ok (some x)
    | .ok false => findE p xs

/-- Lazy nullish chaining `a ?? b` over computations that may throw: `b`
runs only when `a` lands on `undefined` or `null`. -/
def nnE (a : Except String (Option Json)) (b : Unit → Except String (Option Json)) :
    Except String (Option Json) :=
  match a with
  | .error e => .error e
  | .ok none => b ()
  | .ok (some v) => if v.isNull then b () else .ok (some v)

/-- JS `||` restricted to strings: `b` exactly when `a` is `""` (the only
falsy string). -/
def orS (a b : String) : String :=
  if a = "" then b else a

/-- `Array.isArray(parsed.data.output) ? parsed.data.output : []`. -/
def askOutputArray (body : Json) : List Json :=
  match jsGetF body "output" with
  | some (.arr xs) => xs
  | _ => []

/-- `messageBlock.content.find(c => c.type === "output_text") ??
messageBlock.content[0]` when the content is an array, else `undefined`
(lines 230-232); given `messageBlock?.content`. -/
def askMessageContent (contentF : Option Json) : Except String (Option Json) :=
  match contentF with
  | some (.arr cs) =>
    match findE (typeIs "output_text") cs with
    | .error e => .error e
    | .ok found => .ok (nn found cs.head?)
  | _ => .ok none

/-- `outputEntry` (lines 234-238): the `messageContent ?? find ??
output_text ?? output` chain, lazily, over the `"message"` block found in
the output array. -/
def askOutputEntry (body : Json) : Except String (Option Json) :=
  match findE (typeIs "message") (askOutputArray body) with
  | .error e => .error e
  | .ok messageBlock =>
    nnE (askMessageContent
          (match messageBlock with
           | none => none
           | some mb => jsGetF mb "content"))
      (fun _ =>
        nnE (findE (typeIs "output_text") (askOutputArray body)) (fun _ =>
          nnE (.ok (jsGetF body "output_text")) (fun _ =>
            .ok (jsGetF body "output"))))

/-- The output-unwrapping of `askQuestion` (lines 228-248) on a parsed 2xx
body: the `outputEntry` chain converted with `toText`, then the `||` chain
over the alternate top-level fields ending at `"No response"`.  A `null`
body or a `null` array element touched by a `find` callback throws. -/
def askUnwrap (body : Json) : Except String String :=
  if body.isNull then .error "TypeError: Cannot read properties of null"
  else
    match askOutputEntry body with
    | .error e => .error e
    | .ok outputEntry =>
      .ok (orS (toTextU outputEntry)
            (orS (toTextU (jsGetF body "output_text"))
              (orS (toTextU (jsGetF body "response"))
                (orS (toTextU (jsGetF body "result"))
                  (orS (toTextU (jsGetF body "text"))
                    "No response")))))

/-- `askQuestion` (lines 187-259): an empty trimmed question and missing
settings are returned as failures before any request; then one POST, whose
parsed body is unwrapped by `askUnwrap` into the assistant `ChatMessage`
(`id` from the body with the fresh UUID as fallback, `createdAt` from the
clock). -/
def askQuestion (net : Net) (settings : Settings) (question : String)
    (_chatHistory : List ChatMessage) (now : Int) (uuid : String) :
    Except String (ApiResult ChatMessage) × List Request :=
  if jsTrim question = "" then (.ok (.err (.str "Question is empty")), [])
  else if settings.apiKey = "" then (.ok (.err (.str "Missing API key")), [])
  else if settings.vectorStoreId = "" then (.ok (.err (.str "Missing vector store id")), [])
  else
    match handleResponse (net askReq) with
    | .error e => (.error e, [askReq])
    | .ok (.err e) => (.ok (.err e), [askReq])
    | .ok (.ok body) =>
      match askUnwrap body with
      | .error e => (.error e, [askReq])
      | .ok content =>
        (.ok (.ok { id := nn (jsGetF body "id") (some (.str uuid))
                    role := "assistant"
                    content := content
                    createdAt := now }), [askReq])

/-! ### Response-shape predicates

These describe when a 2xx response has a body that the corresponding
operation can destructure without throwing; non-2xx responses satisfy all
of them, since those never reach the destructuring code. -/

/-- A 2xx body parses as JSON (what `res.json()` itself needs). -/
def parseOk (r : HttpResponse) : Bool :=
  !r.isOk || r.body.isSome

/-- A 2xx body parses and is not JSON `null` (what a dotted property read
off the parsed body needs). -/
def nonNullOk (r : HttpResponse) : Bool :=
  !r.isOk ||
    (match r.body with
     | some b => !b.isNull
     | none => false)

/-- A 2xx listing body that `parsed.data.data.map` can consume: an object
whose `data` field is an array of non-`null` associations. -/
def goodListResp (r : HttpResponse) : Bool :=
  !r.isOk ||
    (match r.body with
     | some (.obj fs) =>
       (match lookupField fs "data" with
        | some (.arr items) => items.all (fun i => !i.isNull)
        | _ => false)
     | _ => false)

/-- One `output` entry that the chat unwrapping can walk: not `null`, and
its `content` field, when an array, has no `null` elements (the `find`
callbacks read `.type` off them). -/
def contentOkEntry (e : Json) : Bool :=
  !e.isNull &&
    (match e with
     | .obj fs =>
       (match lookupField fs "content" with
        | some (.arr cs) => cs.all (fun c => !c.isNull)
        | _ => true)
     | _ => true)

/-- A parsed chat body `askQuestion` can unwrap without throwing. -/
def askBodyOk (b : Json) : Bool :=
  !b.isNull &&
    (match jsGetF b "output" with
     | some (.arr xs) => xs.all contentOkEntry
     | _ => true)

/-- A chat response `askQuestion` survives: 2xx implies a parsed body
satisfying `askBodyOk`. -/
def askRespOk (r : HttpResponse) : Bool :=
  !r.isOk ||
    (match r.body with
     | some b => askBodyOk b
     | none => false)

/-! ### Basic lemmas about `handleResponse` -/

/-- A non-2xx response is always converted to a returned failure. -/
theorem handleResponse_notOk (r : HttpResponse) (h : r.isOk = false) :
    ∃ e, handleResponse r = .ok (.err e) := by
  unfold handleResponse
  rw [h]
  cases r.body <;> simp

/-- With a parseable 2xx body (or any non-2xx response), `handleResponse`
never throws. -/
theorem handleResponse_parseOk (r : HttpResponse) (h : parseOk r = true) :
    ∃ a, handleResponse r = .ok a := by
  unfold parseOk at h
  cases hOk : r.isOk with
  | false =>
    obtain ⟨e, he⟩ := handleResponse_notOk r hOk
    exact ⟨.err e, he⟩
  | true =>
    rw [hOk] at h
    simp only [Bool.not_true, Bool.false_or] at h
    cases hb : r.body with
    | none => rw [hb] at h; simp at h
    | some b =>
      exact ⟨.ok b, by unfold handleResponse; rw [hOk, hb]; simp⟩

/-- On a 2xx response with parsed body `b`, `handleResponse` succeeds with
that body. -/
theorem handleResponse_ok (r : HttpResponse) (b : Json)
    (hOk : r.isOk = true) (hb : r.body = some b) :
    handleResponse r = .ok (.ok b) := by
  unfold handleResponse
  rw [hOk, hb]
  simp

/-! ### The listing pipeline -/

/-- With no `null` association in the primary `data` array, the
`Promise.all` fan-out completes and yields exactly one enriched file and
one detail request per association, in the primary order. -/
theorem processItems_ok (net : Net) (now : Int) :
    ∀ items : List Json, (∀ it ∈ items, it.isNull = false) →
      processItems net now items =
        .ok (items.map (itemFile net now), items.map itemDetailReq)
  | [], _ => rfl
  | item :: rest, h => by
    have hi : item.isNull = false := h item (List.mem_cons_self item rest)
    have hr := processItems_ok net now rest (fun it hit => h it (List.mem_cons_of_mem _ hit))
    simp [processItems, listItem, hi, hr]

/-- A successful property read implies the value was an object (hence in
particular not `null`). -/
theorem jsGetF_some (b : Json) (key : String) (v : Json) (h : jsGetF b key = some v) :
    ∃ fs, b = .obj fs := by
  cases b <;> simp [jsGetF] at h ⊢

/-- What `goodListResp` says about an actually-2xx response. -/
theorem goodListResp_elim (r : HttpResponse) (hOk : r.isOk = true)
    (h : goodListResp r = true) :
    ∃ fs items, r.body = some (.obj fs) ∧ lookupField fs "data" = some (.arr items) ∧
      ∀ it ∈ items, it.isNull = false := by
  unfold goodListResp at h
  rw [hOk] at h
  simp only [Bool.not_true, Bool.false_or] at h
  split at h
  next fs hb =>
    split at h
    next items hd =>
      refine ⟨fs, items, hb, hd, ?_⟩
      simpa using h
    next => simp at h
  next => simp at h

/-- Full description of `listFiles` on the good path: non-empty settings,
a 2xx primary response whose body holds a `data` array of non-`null`
associations.  The result is the per-item enrichment mapped over the
primary array, whatever the oracle answers the detail requests. -/
theorem listFiles_ok_spec (net : Net) (s : Settings) (now : Int) (body : Json)
    (items : List Json)
    (hkey : s.apiKey ≠ "") (hvs : s.vectorStoreId ≠ "")
    (hOk : (net (listReq s)).isOk = true) (hB : (net (listReq s)).body = some body)
    (hD : jsGetF body "data" = some (.arr items))
    (hNN : ∀ it ∈ items, it.isNull = false) :
    listFiles net s now =
      (.ok (.ok (items.map (itemFile net now))), listReq s :: items.map itemDetailReq) := by
  obtain ⟨fs, rfl⟩ := jsGetF_some _ _ _ hD
  simp only [listFiles]
  rw [if_neg hkey, if_neg hvs, handleResponse_ok _ _ hOk hB]
  simp [Json.isNull, hD, processItems_ok net now items hNN]

/-- When the primary listing request fails (non-2xx), `listFiles` returns
exactly that failure, after the one primary request. -/
theorem listFiles_err_spec (net : Net) (s : Settings) (now : Int) (e : Json)
    (hkey : s.apiKey ≠ "") (hvs : s.vectorStoreId ≠ "")
    (h : handleResponse (net (listReq s)) = .ok (.err e)) :
    listFiles net s now = (.ok (.err e), [listReq s]) := by
  simp only [listFiles]
  rw [if_neg hkey, if_neg hvs, h]

/-- `listFiles` never throws when the primary response satisfies
`goodListResp` (the detail responses are unconstrained: their failures are
swallowed by the per-item `try`). -/
theorem listFiles_no_throw (net : Net) (s : Settings) (now : Int)
    (h : goodListResp (net (listReq s)) = true) :
    ∃ r, (listFiles net s now).fst = .ok r := by
  by_cases hk : s.apiKey = ""
  · exact ⟨.err (.str "Missing API key"), by simp [listFiles, hk]⟩
  by_cases hv : s.vectorStoreId = ""
  · exact ⟨.err (.str "Missing vector store id"), by simp [listFiles, hk, hv]⟩
  cases hOk : (net (listReq s)).isOk with
  | false =>
    obtain ⟨e, he⟩ := handleResponse_notOk _ hOk
    exact ⟨.err e, by rw [listFiles_err_spec net s now e hk hv he]⟩
  | true =>
    obtain ⟨fs, items, hb, hd, hNN⟩ := goodListResp_elim _ hOk h
    exact ⟨.ok (items.map (itemFile net now)), by
      rw [listFiles_ok_spec net s now (.obj fs) items hk hv hOk hb (by simp [jsGetF, hd]) hNN]⟩

/-! ### Upload, delete, replace -/

/-- What `nonNullOk` says about an actually-2xx response. -/
theorem nonNullOk_elim (r : HttpResponse) (hOk : r.isOk = true)
    (h : nonNullOk r = true) :
    ∃ b, r.body = some b ∧ b.isNull = false := by
  unfold nonNullOk at h
  rw [hOk] at h
  simp only [Bool.not_true, Bool.false_or] at h
  split at h
  next b hb => exact ⟨b, hb, by simpa using h⟩
  next => simp at h

/-- `uploadFile` never throws when both its responses, if 2xx, carry
parsed non-`null` bodies. -/
theorem uploadFile_no_throw (net : Net) (s : Settings) (f : FileInfo) (now : Int)
    (h1 : nonNullOk (net filesReq) = true) (h2 : nonNullOk (net (attachReq s)) = true) :
    ∃ r, (uploadFile net s f now).fst = .ok r := by
  by_cases hk : s.apiKey = ""
  · exact ⟨.err (.str "Missing API key"), by simp [uploadFile, hk]⟩
  by_cases hv : s.vectorStoreId = ""
  · exact ⟨.err (.str "Missing vector store id"), by simp [uploadFile, hk, hv]⟩
  simp only [uploadFile, if_neg hk, if_neg hv]
  cases hOk1 : (net filesReq).isOk with
  | false =>
    obtain ⟨e, he⟩ := handleResponse_notOk _ hOk1
    exact ⟨.err e, by rw [he]⟩
  | true =>
    obtain ⟨b1, hb1, hn1⟩ := nonNullOk_elim _ hOk1 h1
    rw [handleResponse_ok _ _ hOk1 hb1]
    simp only [hn1, Bool.false_eq_true, if_false]
    cases hOk2 : (net (attachReq s)).isOk with
    | false =>
      obtain ⟨e, he⟩ := handleResponse_notOk _ hOk2
      exact ⟨.err e, by rw [he]⟩
    | true =>
      obtain ⟨b2, hb2, hn2⟩ := nonNullOk_elim _ hOk2 h2
      rw [handleResponse_ok _ _ hOk2 hb2]
      simp [hn2]

/-- `deleteFile` never throws when its response, if 2xx, parses. -/
theorem deleteFile_no_throw (net : Net) (s : Settings) (fileId : String)
    (h : parseOk (net (delReq s fileId)) = true) :
    ∃ r, (deleteFile net s fileId).fst = .ok r := by
  by_cases hk : s.apiKey = ""
  · exact ⟨.err (.str "Missing API key"), by simp [deleteFile, hk]⟩
  by_cases hv : s.vectorStoreId = ""
  · exact ⟨.err (.str "Missing vector store id"), by simp [deleteFile, hk, hv]⟩
  simp only [deleteFile, if_neg hk, if_neg hv]
  obtain ⟨a, ha⟩ := handleResponse_parseOk _ h
  cases a with
  | ok b => exact ⟨.ok true, by rw [ha]⟩
  | err e => exact ⟨.err e, by rw [ha]⟩

/-- With non-empty settings, `deleteFile` always issues exactly its one
DELETE request. -/
theorem deleteFile_reqs (net : Net) (s : Settings) (fileId : String)
    (hk : s.apiKey ≠ "") (hv : s.vectorStoreId ≠ "") :
    (deleteFile net s fileId).snd = [delReq s fileId] := by
  simp only [deleteFile, if_neg hk, if_neg hv]
  cases h : handleResponse (net (delReq s fileId)) with
  | error e => rfl
  | ok a => cases a <;> rfl

/-- An upload that reaches a success result got past the settings guard. -/
theorem uploadFile_ok_settings (net : Net) (s : Settings) (f : FileInfo) (now : Int)
    (kf : KnowledgeFile) (reqs : List Request)
    (h : uploadFile net s f now = (.ok (.ok kf), reqs)) :
    s.apiKey ≠ "" ∧ s.vectorStoreId ≠ "" := by
  by_cases hk : s.apiKey = ""
  · simp [uploadFile, hk] at h
  by_cases hv : s.vectorStoreId = ""
  · simp [uploadFile, hk, hv] at h
  exact ⟨hk, hv⟩

/-- Every request `uploadFile` issues is its registration POST or its
attach POST. -/
theorem uploadFile_reqs_sub (net : Net) (s : Settings) (f : FileInfo) (now : Int) :
    ∀ q ∈ (uploadFile net s f now).snd, q = filesReq ∨ q = attachReq s := by
  intro q hq
  by_cases hk : s.apiKey = ""
  · simp [uploadFile, hk] at hq
  by_cases hv : s.vectorStoreId = ""
  · simp [uploadFile, hk, hv] at hq
  simp only [uploadFile, if_neg hk, if_neg hv] at hq
  cases h1 : handleResponse (net filesReq) with
  | error e => rw [h1] at hq; simp at hq; simp [hq]
  | ok a1 =>
    cases a1 with
    | err e => rw [h1] at hq; simp at hq; simp [hq]
    | ok b1 =>
      rw [h1] at hq
      by_cases hn1 : b1.isNull = true
      · simp only [hn1, if_true] at hq
        simp at hq; simp [hq]
      · simp only [Bool.not_eq_true] at hn1
        simp only [hn1, Bool.false_eq_true, if_false] at hq
        cases h2 : handleResponse (net (attachReq s)) with
        | error e => rw [h2] at hq; simp at hq; rcases hq with hq | hq <;> simp [hq]
        | ok a2 =>
          cases a2 with
          | err e => rw [h2] at hq; simp at hq; rcases hq with hq | hq <;> simp [hq]
          | ok b2 =>
            rw [h2] at hq
            by_cases hn2 : b2.isNull = true
            · simp only [hn2, if_true] at hq
              simp at hq; rcases hq with hq | hq <;> simp [hq]
            · simp only [Bool.not_eq_true] at hn2
              simp only [hn2, Bool.false_eq_true, if_false] at hq
              simp at hq; rcases hq with hq | hq <;> simp [hq]

/-- The delete request can never be one of the upload's requests (its
method is DELETE, theirs POST). -/
theorem delReq_not_upload (s s' : Settings) (eid : String) :
    delReq s eid ≠ filesReq ∧ delReq s eid ≠ attachReq s' := by
  constructor <;> (intro h; exact absurd (congrArg Request.method h) (by simp [delReq, filesReq, attachReq]))

/-- `replaceFile` on a failed upload: the upload's failure is returned,
its request log is unchanged, and no delete request was issued. -/
theorem replaceFile_upload_err (net : Net) (s : Settings) (eid : String)
    (f : FileInfo) (now : Int) (e : Json) (reqs : List Request)
    (h : uploadFile net s f now = (.ok (.err e), reqs)) :
    replaceFile net s eid f now = (.ok (.err e), reqs) ∧ delReq s eid ∉ reqs := by
  constructor
  · simp only [replaceFile, h]
  · intro hmem
    have hsub := uploadFile_reqs_sub net s f now (delReq s eid) (by rw [h]; exact hmem)
    rcases hsub with hq | hq
    · exact absurd hq (delReq_not_upload s s eid).1
    · exact absurd hq (delReq_not_upload s s eid).2

/-- `replaceFile` on a successful upload whose trailing delete completes
with an `ApiResult` (of either polarity): the upload's success result is
returned and the delete request is issued after the upload's requests. -/
theorem replaceFile_upload_ok (net : Net) (s : Settings) (eid : String)
    (f : FileInfo) (now : Int) (kf : KnowledgeFile) (reqs : List Request)
    (r : ApiResult Bool)
    (h : uploadFile net s f now = (.ok (.ok kf), reqs))
    (hdel : (deleteFile net s eid).fst = .ok r) :
    replaceFile net s eid f now = (.ok (.ok kf), reqs ++ [delReq s eid]) := by
  obtain ⟨hk, hv⟩ := uploadFile_ok_settings net s f now kf reqs h
  have hreqs := deleteFile_reqs net s eid hk hv
  simp only [replaceFile, h]
  cases hd : deleteFile net s eid with
  | mk fst snd =>
    rw [hd] at hdel hreqs
    simp only at hdel hreqs
    rw [hdel, hreqs]

/-- `replaceFile` never throws when the upload responses are well-shaped
and the delete response parses. -/
theorem replaceFile_no_throw (net : Net) (s : Settings) (eid : String)
    (f : FileInfo) (now : Int)
    (h1 : nonNullOk (net filesReq) = true) (h2 : nonNullOk (net (attachReq s)) = true)
    (hd : parseOk (net (delReq s eid)) = true) :
    ∃ r, (replaceFile net s eid f now).fst = .ok r := by
  obtain ⟨r, hr⟩ := uploadFile_no_throw net s f now h1 h2
  cases hu : uploadFile net s f now with
  | mk fst snd =>
    rw [hu] at hr
    simp only at hr
    subst hr
    cases r with
    | err e => exact ⟨.err e, by simp only [replaceFile, hu]⟩
    | ok kf =>
      obtain ⟨rd, hrd⟩ := deleteFile_no_throw net s eid hd
      exact ⟨.ok kf, by
        rw [replaceFile_upload_ok net s eid f now kf snd rd hu hrd]⟩

/-! ### Chat unwrapping -/

/-- Over a list with no `null` element, a `find` with a `typeIs` callback
cannot throw, and whatever it finds is an element of the list. -/
theorem findE_typeIs_ok (tag : String) :
    ∀ xs : List Json, (∀ x ∈ xs, x.isNull = false) →
      findE (typeIs tag) xs = .ok none ∨
        ∃ mb, mb ∈ xs ∧ findE (typeIs tag) xs = .ok (some mb)
  | [], _ => .inl rfl
  | x :: xs, h => by
    have hx : x.isNull = false := h x (List.mem_cons_self x xs)
    have hrest := findE_typeIs_ok tag xs (fun y hy => h y (List.mem_cons_of_mem _ hy))
    simp only [findE, typeIs, hx, Bool.false_eq_true, if_false]
    cases ht : typeTag tag x with
    | true => exact .inr ⟨x, List.mem_cons_self x xs, rfl⟩
    | false =>
      rcases hrest with hnone | ⟨mb, hmb, hfound⟩
      · exact .inl hnone
      · exact .inr ⟨mb, List.mem_cons_of_mem _ hmb, hfound⟩

/-- Weak form: such a `find` returns (does not throw). -/
theorem findE_typeIs_no_throw (tag : String) (xs : List Json)
    (h : ∀ x ∈ xs, x.isNull = false) :
    ∃ o, findE (typeIs tag) xs = .ok o := by
  rcases findE_typeIs_ok tag xs h with hn | ⟨mb, _, hf⟩
  · exact ⟨none, hn⟩
  · exact ⟨some mb, hf⟩

/-- `nnE` cannot throw when neither branch can. -/
theorem nnE_ok (a : Except String (Option Json)) (b : Unit → Except String (Option Json))
    (o : Option Json) (ha : a = .ok o) (hb : ∃ o', b () = .ok o') :
    ∃ o'', nnE a b = .ok o'' := by
  subst ha
  obtain ⟨o', hb⟩ := hb
  cases o with
  | none => exact ⟨o', by simpa [nnE] using hb⟩
  | some v =>
    cases hv : v.isNull with
    | true => exact ⟨o', by simp only [nnE, hv, if_true]; exact hb⟩
    | false => exact ⟨some v, by simp [nnE, hv]⟩

/-- What `askBodyOk` provides: a non-`null` body whose `output` entries
(no constraint if there are none) are walkable. -/
theorem askBodyOk_elim (b : Json) (h : askBodyOk b = true) :
    b.isNull = false ∧ ∀ e ∈ askOutputArray b, contentOkEntry e = true := by
  unfold askBodyOk at h
  rw [Bool.and_eq_true] at h
  obtain ⟨h1, h2⟩ := h
  refine ⟨by simpa using h1, ?_⟩
  intro e he
  unfold askOutputArray at he
  split at he
  next xs hxs =>
    rw [hxs] at h2
    exact List.all_eq_true.mp h2 e he
  next => simp at he

/-- A walkable entry is not `null`. -/
theorem contentOkEntry_not_null (e : Json) (h : contentOkEntry e = true) :
    e.isNull = false := by
  unfold contentOkEntry at h
  rw [Bool.and_eq_true] at h
  simpa using h.1

/-- The `content` array of a walkable entry has no `null` element. -/
theorem contentOkEntry_content (e : Json) (cs : List Json)
    (h : contentOkEntry e = true) (hc : jsGetF e "content" = some (.arr cs)) :
    ∀ c ∈ cs, c.isNull = false := by
  intro c hcmem
  obtain ⟨fs, rfl⟩ := jsGetF_some _ _ _ hc
  simp only [contentOkEntry, Bool.and_eq_true] at h
  obtain ⟨_, h2⟩ := h
  simp only [jsGetF] at hc
  rw [hc] at h2
  simpa using List.all_eq_true.mp h2 c hcmem

/-- `askMessageContent` cannot throw when the content array, if there is
one, has no `null` element. -/
theorem askMessageContent_ok (contentF : Option Json)
    (h : ∀ cs, contentF = some (.arr cs) → ∀ c ∈ cs, c.isNull = false) :
    ∃ o, askMessageContent contentF = .ok o := by
  cases contentF with
  | none => exact ⟨none, rfl⟩
  | some cv =>
    cases cv with
    | arr cs =>
      obtain ⟨oc, hoc⟩ := findE_typeIs_no_throw "output_text" cs (h cs rfl)
      refine ⟨nn oc cs.head?, ?_⟩
      simp only [askMessageContent]
      rw [hoc]
    | null => exact ⟨none, rfl⟩
    | bool b => exact ⟨none, rfl⟩
    | num n => exact ⟨none, rfl⟩
    | str s => exact ⟨none, rfl⟩
    | obj fs => exact ⟨none, rfl⟩

/-- The trailing `?? find ?? output_text ?? output` chain of the output
entry cannot throw over a `null`-free output array. -/
theorem askTail_ok (body : Json) (oa : List Json)
    (h : ∀ x ∈ oa, x.isNull = false) :
    ∃ o, nnE (findE (typeIs "output_text") oa) (fun _ =>
           nnE (.ok (jsGetF body "output_text")) (fun _ =>
             .ok (jsGetF body "output"))) = .ok o := by
  obtain ⟨o1, ho1⟩ := findE_typeIs_no_throw "output_text" oa h
  exact nnE_ok _ _ o1 ho1 (nnE_ok _ _ (jsGetF body "output_text") rfl ⟨_, rfl⟩)

/-- The whole `outputEntry` chain cannot throw on a body satisfying
`askBodyOk`. -/
theorem askOutputEntry_ok (body : Json) (h : askBodyOk body = true) :
    ∃ o, askOutputEntry body = .ok o := by
  obtain ⟨_, hoaOk⟩ := askBodyOk_elim body h
  have hoann : ∀ x ∈ askOutputArray body, x.isNull = false :=
    fun x hx => contentOkEntry_not_null x (hoaOk x hx)
  rcases findE_typeIs_ok "message" (askOutputArray body) hoann with hf | ⟨mb, hmb, hf⟩
  · simp only [askOutputEntry]
    rw [hf]
    exact nnE_ok _ _ none rfl (askTail_ok body _ hoann)
  · simp only [askOutputEntry]
    rw [hf]
    obtain ⟨mc, hmc⟩ := askMessageContent_ok (jsGetF mb "content")
      (fun cs hcs => contentOkEntry_content mb cs (hoaOk mb hmb) hcs)
    exact nnE_ok _ _ mc hmc (askTail_ok body _ hoann)

/-- `askUnwrap` always yields a string on a body satisfying `askBodyOk`. -/
theorem askUnwrap_ok (body : Json) (h : askBodyOk body = true) :
    ∃ s, askUnwrap body = .ok s := by
  obtain ⟨hnn, _⟩ := askBodyOk_elim body h
  obtain ⟨o, ho⟩ := askOutputEntry_ok body h
  unfold askUnwrap
  rw [hnn]
  simp only [Bool.false_eq_true, if_false]
  rw [ho]
  exact ⟨_, rfl⟩

/-- `askQuestion` never throws when its response, if 2xx, carries a body
satisfying `askBodyOk`; with an empty question or missing settings it
fails fast instead. -/
theorem askQuestion_no_throw (net : Net) (s : Settings) (q : String)
    (hist : List ChatMessage) (now : Int) (uuid : String)
    (h : askRespOk (net askReq) = true) :
    ∃ r, (askQuestion net s q hist now uuid).fst = .ok r := by
  by_cases hq : jsTrim q = ""
  · exact ⟨.err (.str "Question is empty"), by simp [askQuestion, hq]⟩
  by_cases hk : s.apiKey = ""
  · exact ⟨.err (.str "Missing API key"), by simp [askQuestion, hq, hk]⟩
  by_cases hv : s.vectorStoreId = ""
  · exact ⟨.err (.str "Missing vector store id"), by simp [askQuestion, hq, hk, hv]⟩
  simp only [askQuestion, if_neg hq, if_neg hk, if_neg hv]
  cases hOk : (net askReq).isOk with
  | false =>
    obtain ⟨e, he⟩ := handleResponse_notOk _ hOk
    exact ⟨.err e, by rw [he]⟩
  | true =>
    unfold askRespOk at h
    rw [hOk] at h
    simp only [Bool.not_true, Bool.false_or] at h
    cases hb : (net askReq).body with
    | none => rw [hb] at h; simp at h
    | some b =>
      rw [hb] at h
      obtain ⟨c, hc⟩ := askUnwrap_ok b (by simpa using h)
      rw [handleResponse_ok _ _ hOk hb]
      exact ⟨.ok { id := nn (jsGetF b "id") (some (.str uuid)), role := "assistant",
                   content := c, createdAt := now }, by simp [hc]⟩

/-! ### Create vector store -/

/-- `createVectorStore` throws exactly on its local preconditions. -/
theorem createVectorStore_throws (net : Net) (name : String) (s : Settings)
    (h : jsTrim name = "" ∨ s.apiKey = "") :
    ∃ m, createVectorStore net name s = (.error m, []) := by
  by_cases hn : jsTrim name = ""
  · exact ⟨"Vector store name is required", by simp [createVectorStore, hn]⟩
  · rcases h with h | hk
    · exact absurd h hn
    · exact ⟨"API key required", by simp [createVectorStore, hn, hk]⟩

/-- Past its preconditions, `createVectorStore` issues its request and
returns whatever `handleResponse` makes of the answer. -/
theorem createVectorStore_run (net : Net) (name : String) (s : Settings)
    (hn : jsTrim name ≠ "") (hk : s.apiKey ≠ "") :
    (createVectorStore net name s).snd = [cvsReq] := by
  simp only [createVectorStore, if_neg hn, if_neg hk]
  cases h : handleResponse (net cvsReq) with
  | error e => rfl
  | ok a => rfl

/-- Past its preconditions and with a parseable answer,
`createVectorStore` returns an `ApiResult`. -/
theorem createVectorStore_no_throw (net : Net) (name : String) (s : Settings)
    (hn : jsTrim name ≠ "") (hk : s.apiKey ≠ "")
    (h : parseOk (net cvsReq) = true) :
    ∃ r, (createVectorStore net name s).fst = .ok r := by
  simp only [createVectorStore, if_neg hn, if_neg hk]
  obtain ⟨a, ha⟩ := handleResponse_parseOk _ h
  exact ⟨a, by rw [ha]⟩

/-! ### The claims -/

def c4settings : Settings := ⟨"k", "m", "vs"⟩

/-- The chat response body of C4's first test vector. -/
def c4body1 : Json :=
  .obj [("output", .arr [ .obj [("type", .str "message"),
    ("content", .arr [ .obj [("type", .str "output_text"), ("text", .str "Paris")] ])] ])]

/-- A network oracle answering every request with a 2xx response carrying
the given JSON body. -/
def netConst (b : Json) : Net := fun _ => ⟨200, "OK", some b⟩

/-- C4: askQuestion's output unwrapping satisfies the three specified test
vectors: a message block with an output_text item "Paris" yields content
"Paris"; a bare top-level output_text "Lyon" with no output array yields
"Lyon"; the unrecognized body with only a foo field yields the literal
"No response". -/
theorem claim_C4 :
    (askQuestion (netConst c4body1) c4settings "What is the capital?" [] 0 "uid-1").fst =
      .ok (.ok ⟨some (.str "uid-1"), "assistant", "Paris", 0⟩) ∧
    (askQuestion (netConst (.obj [("output_text", .str "Lyon")]))
        c4settings "What is the capital?" [] 0 "uid-1").fst =
      .ok (.ok ⟨some (.str "uid-1"), "assistant", "Lyon", 0⟩) ∧
    (askQuestion (netConst (.obj [("foo", .num 1)]))
        c4settings "What is the capital?" [] 0 "uid-1").fst =
      .ok (.ok ⟨some (.str "uid-1"), "assistant", "No response", 0⟩) :=
  ⟨rfl, rfl, rfl⟩

/-- C7: on every non-2xx response, a parsed body carrying a string
error.message yields exactly that message as the failure, and an
unparseable body yields the generic "status statusText" string. -/
theorem claim_C7 (status : Nat) (stext : String)
    (hno : ¬(200 ≤ status ∧ status < 300)) :
    (∀ fs efs m, lookupField fs "error" = some (.obj efs) →
        lookupField efs "message" = some (.str m) →
        handleResponse ⟨status, stext, some (.obj fs)⟩ = .ok (.err (.str m))) ∧
    handleResponse ⟨status, stext, none⟩ =
      .ok (.err (.str (toString status ++ " " ++ stext))) := by
  have hOk : ∀ b : Option Json, HttpResponse.isOk ⟨status, stext, b⟩ = false := by
    intro b
    simp only [HttpResponse.isOk, Bool.and_eq_false_iff, decide_eq_false_iff_not]
    omega
  constructor
  · intro fs efs m h1 h2
    unfold handleResponse
    rw [hOk]
    simp [errMessageField, h1, h2]
  · unfold handleResponse
    rw [hOk]
    simp

/-- C7 witness: status 404 with body error.message "bad key" yields "bad
key"; with an unparseable body it yields "404 Not Found". -/
theorem claim_C7_witness :
    handleResponse ⟨404, "Not Found", some (.obj [("error", .obj [("message", .str "bad key")])])⟩ =
      .ok (.err (.str "bad key")) ∧
    handleResponse ⟨404, "Not Found", none⟩ = .ok (.err (.str "404 Not Found")) :=
  ⟨(claim_C7 404 "Not Found" (by omega)).1 _ _ _ rfl rfl,
   (claim_C7 404 "Not Found" (by omega)).2⟩

/-- C8: a question that trims to the empty string makes askQuestion fail
with "Question is empty" before any request, for every history, settings,
clock and id supply. -/
theorem claim_C8 (net : Net) (s : Settings) (q : String)
    (hist : List ChatMessage) (now : Int) (uuid : String) (h : jsTrim q = "") :
    askQuestion net s q hist now uuid = (.ok (.err (.str "Question is empty")), []) := by
  simp [askQuestion, h]

/-- C8 witness: the whitespace-only question, at a concrete net and
settings. -/
theorem claim_C8_witness :
    askQuestion (netConst (.obj [])) ⟨"k", "m", "vs"⟩ " \t " [] 0 "uid" =
      (.ok (.err (.str "Question is empty")), []) :=
  claim_C8 (netConst (.obj [])) ⟨"k", "m", "vs"⟩ " \t " [] 0 "uid" rfl

/-- C9: toText is total on JSON values by construction (it is a function
into String), it returns every string unchanged, and it is therefore
idempotent: re-applying it to its own (string) result is the identity. -/
theorem claim_C9 :
    (∀ s : String, toText (.str s) = s) ∧
    (∀ v : Json, toText (.str (toText v)) = toText v) :=
  ⟨fun _ => rfl, fun _ => rfl⟩

/-- C10: enrichment can only overwrite filename, bytes, metadata and
created_at: whatever the detail response contains, the returned file's id
and status are the ones taken from the primary listing association
(item.id, and item.status with the "unknown" fallback). -/
theorem claim_C10 (item : Json) (now : Int) (r : HttpResponse)
    (_h : item.isNull = false) :
    (enrich (primaryFile item now) r).id = jsGetF item "id" ∧
    (enrich (primaryFile item now) r).status =
      nn (jsGetF item "status") (some (.str "unknown")) := by
  unfold enrich primaryFile
  cases hOk : r.isOk with
  | false => simp
  | true =>
    cases hb : r.body with
    | none => simp
    | some d => cases d <;> simp

/-- C10 witness: a concrete association and detail response that tries to
smuggle in a different id and status. -/
theorem claim_C10_witness :
    (enrich (primaryFile (.obj [("id", .str "vsf-1")]) 0)
        ⟨200, "OK", some (.obj [("id", .str "evil"), ("status", .str "evil"),
          ("filename", .str "new.txt")])⟩).id = some (.str "vsf-1") ∧
    (enrich (primaryFile (.obj [("id", .str "vsf-1")]) 0)
        ⟨200, "OK", some (.obj [("id", .str "evil"), ("status", .str "evil"),
          ("filename", .str "new.txt")])⟩).status = some (.str "unknown") := by
  have h := claim_C10 (.obj [("id", .str "vsf-1")]) 0
    ⟨200, "OK", some (.obj [("id", .str "evil"), ("status", .str "evil"),
      ("filename", .str "new.txt")])⟩ rfl
  exact ⟨h.1.trans rfl, h.2.trans rfl⟩

/-- C5: with usable settings, a failed primary listing is returned as that
failure, while a primary listing that succeeds (2xx, parsed body carrying
the data array of associations) yields a success result whatever the
oracle answers the per-item detail requests; and any failed detail
response (non-2xx, unparseable or null body) leaves the primary fields
untouched. -/
theorem claim_C5 (net : Net) (s : Settings) (now : Int)
    (body : Json) (items : List Json)
    (hkey : s.apiKey ≠ "") (hvs : s.vectorStoreId ≠ "") :
    (∀ e, handleResponse (net (listReq s)) = .ok (.err e) →
        listFiles net s now = (.ok (.err e), [listReq s])) ∧
    ((net (listReq s)).isOk = true → (net (listReq s)).body = some body →
      jsGetF body "data" = some (.arr items) → (∀ it ∈ items, it.isNull = false) →
      listFiles net s now =
        (.ok (.ok (items.map (itemFile net now))), listReq s :: items.map itemDetailReq)) ∧
    (∀ file r, r.isOk = false ∨ r.body = none ∨ r.body = some .null →
        enrich file r = file) := by
  refine ⟨fun e he => listFiles_err_spec net s now e hkey hvs he,
          fun hOk hB hD hNN => listFiles_ok_spec net s now body items hkey hvs hOk hB hD hNN,
          ?_⟩
  intro file r hr
  rcases hr with h | h | h
  · simp [enrich, h]
  · unfold enrich
    cases hOk : r.isOk <;> simp [h]
  · unfold enrich
    cases hOk : r.isOk <;> simp [h]

def c5settings : Settings := ⟨"k", "m", "vs"⟩

def c5item : Json := .obj [("id", .str "vsf-1"), ("file_id", .str "file-9"),
  ("status", .str "completed")]

def c5body : Json := .obj [("data", .arr [c5item])]

/-- A primary listing that succeeds while every detail request gets a 500
with an unparseable body. -/
def c5net : Net := fun r =>
  if r = listReq c5settings then ⟨200, "OK", some c5body⟩
  else ⟨500, "Internal Server Error", none⟩

/-- C5 witness: the listing succeeds even though the sole detail fetch
fails, and the item keeps its primary fields. -/
theorem claim_C5_witness :
    listFiles c5net c5settings 7 =
      (.ok (.ok ([c5item].map (itemFile c5net 7))),
        listReq c5settings :: [c5item].map itemDetailReq) :=
  (claim_C5 c5net c5settings 7 c5body [c5item] (by decide) (by decide)).2.1
    rfl rfl rfl (by intro it hit; rw [List.mem_singleton.mp hit]; rfl)

/-- C6: on a successful listing, the returned sequence has exactly one
file per primary association, in the primary order: the i-th file is the
enrichment of the i-th association. -/
theorem claim_C6 (net : Net) (s : Settings) (now : Int)
    (body : Json) (items : List Json)
    (hkey : s.apiKey ≠ "") (hvs : s.vectorStoreId ≠ "")
    (hOk : (net (listReq s)).isOk = true) (hB : (net (listReq s)).body = some body)
    (hD : jsGetF body "data" = some (.arr items))
    (hNN : ∀ it ∈ items, it.isNull = false) :
    ∃ files, listFiles net s now = (.ok (.ok files), listReq s :: items.map itemDetailReq) ∧
      files.length = items.length ∧
      ∀ (i : Nat) (h1 : i < files.length) (h2 : i < items.length),
        files.get ⟨i, h1⟩ = itemFile net now (items.get ⟨i, h2⟩) := by
  refine ⟨items.map (itemFile net now),
          listFiles_ok_spec net s now body items hkey hvs hOk hB hD hNN,
          by simp, ?_⟩
  intro i h1 h2
  simp [List.get_eq_getElem, List.getElem_map]

def c6items : List Json := [.obj [("id", .str "a"), ("file_id", .str "fa")],
  .obj [("id", .str "b"), ("file_id", .str "fb")]]

/-- A two-association listing whose detail requests all 404. -/
def c6net : Net := fun r =>
  if r = listReq c5settings then ⟨200, "OK", some (.obj [("data", .arr c6items)])⟩
  else ⟨404, "Not Found", none⟩

/-- C6 witness: a two-element listing at a concrete oracle. -/
theorem claim_C6_witness :
    ∃ files, listFiles c6net c5settings 3 =
        (.ok (.ok files), listReq c5settings :: c6items.map itemDetailReq) ∧
      files.length = c6items.length ∧
      ∀ (i : Nat) (h1 : i < files.length) (h2 : i < c6items.length),
        files.get ⟨i, h1⟩ = itemFile c6net 3 (c6items.get ⟨i, h2⟩) :=
  claim_C6 c6net c5settings 3 (.obj [("data", .arr c6items)]) c6items
    (by decide) (by decide) rfl rfl rfl
    (by intro it hit
        rcases List.mem_cons.mp hit with rfl | hit
        · rfl
        · rw [List.mem_singleton.mp hit]; rfl)

/-- C1 counterexample: a body-parse condition does raise an exception out
of an operation.  A 2xx primary listing response whose body is not JSON
makes `res.json()` reject inside `handleResponse` (line 19, outside any
try), so `listFiles` rejects instead of returning a tagged result. -/
theorem claim_C1_counterexample :
    (listFiles (fun _ => ⟨200, "OK", none⟩) ⟨"k", "m", "vs"⟩ 0).fst =
      .error "SyntaxError: Unexpected end of JSON input" := rfl

/-- C1 amended: every operation returns a tagged ApiResult — provided
every 2xx response it receives has a parseable body of the shape its
destructuring needs (listing: a data array of non-null associations;
upload: non-null bodies; chat: a walkable body; delete and create-store:
any parsed body) — and createVectorStore's local precondition checks are
thrown; without the shape proviso a 2xx response can make an operation
throw (see the counterexample). -/
theorem claim_C1_amended (net : Net) (s : Settings) (name q eid : String)
    (f : FileInfo) (hist : List ChatMessage) (now : Int) (uuid : String)
    (hL : goodListResp (net (listReq s)) = true)
    (hU1 : nonNullOk (net filesReq) = true)
    (hU2 : nonNullOk (net (attachReq s)) = true)
    (hD : parseOk (net (delReq s eid)) = true)
    (hC : parseOk (net cvsReq) = true)
    (hA : askRespOk (net askReq) = true) :
    (∃ r, (listFiles net s now).fst = .ok r) ∧
    (∃ r, (uploadFile net s f now).fst = .ok r) ∧
    (∃ r, (deleteFile net s eid).fst = .ok r) ∧
    (∃ r, (replaceFile net s eid f now).fst = .ok r) ∧
    (∃ r, (askQuestion net s q hist now uuid).fst = .ok r) ∧
    (jsTrim name ≠ "" → s.apiKey ≠ "" → ∃ r, (createVectorStore net name s).fst = .ok r) ∧
    ((jsTrim name = "" ∨ s.apiKey = "") →
      ∃ m, (createVectorStore net name s).fst = .error m) :=
  ⟨listFiles_no_throw net s now hL,
   uploadFile_no_throw net s f now hU1 hU2,
   deleteFile_no_throw net s eid hD,
   replaceFile_no_throw net s eid f now hU1 hU2 hD,
   askQuestion_no_throw net s q hist now uuid hA,
   fun hn hk => createVectorStore_no_throw net name s hn hk hC,
   fun h => by
     obtain ⟨m, hm⟩ := createVectorStore_throws net name s h
     exact ⟨m, by rw [hm]⟩⟩

/-- A well-shaped oracle: everything is a 404 with an empty-object body,
which satisfies every shape proviso. -/
def c1net : Net := fun _ => ⟨404, "Not Found", some (.obj [])⟩

/-- C1 witness: the amended statement at a concrete oracle and inputs. -/
theorem claim_C1_witness :
    (∃ r, (listFiles c1net ⟨"k", "m", "vs"⟩ 0).fst = .ok r) ∧
    (∃ r, (uploadFile c1net ⟨"k", "m", "vs"⟩ ⟨"doc.txt", 3⟩ 0).fst = .ok r) ∧
    (∃ r, (deleteFile c1net ⟨"k", "m", "vs"⟩ "old").fst = .ok r) ∧
    (∃ r, (replaceFile c1net ⟨"k", "m", "vs"⟩ "old" ⟨"doc.txt", 3⟩ 0).fst = .ok r) ∧
    (∃ r, (askQuestion c1net ⟨"k", "m", "vs"⟩ "why?" [] 0 "uid").fst = .ok r) ∧
    (jsTrim "store" ≠ "" → Settings.apiKey ⟨"k", "m", "vs"⟩ ≠ "" →
      ∃ r, (createVectorStore c1net "store" ⟨"k", "m", "vs"⟩).fst = .ok r) ∧
    ((jsTrim "store" = "" ∨ Settings.apiKey ⟨"k", "m", "vs"⟩ = "") →
      ∃ m, (createVectorStore c1net "store" ⟨"k", "m", "vs"⟩).fst = .error m) :=
  claim_C1_amended c1net ⟨"k", "m", "vs"⟩ "store" "why?" "old" ⟨"doc.txt", 3⟩ [] 0 "uid"
    rfl rfl rfl rfl rfl rfl

/-- C2 counterexample: a Settings value whose vectorStoreId is empty (but
whose apiKey is not) does not make createVectorStore throw: the function
never checks vectorStoreId, performs its request, and returns a tagged
failure built from the 400 answer. -/
theorem claim_C2_counterexample :
    createVectorStore (fun _ => ⟨400, "Bad Request", some (.obj [])⟩) "store" ⟨"k", "m", ""⟩ =
      (.ok (.err (.str "400 Bad Request")), [cvsReq]) := rfl

/-- C2 amended: with apiKey or vectorStoreId empty, each of the five
ApiResult operations fails without issuing any request; createVectorStore
throws whenever apiKey is empty, but it never checks vectorStoreId: with a
non-empty apiKey (and non-blank name) it issues its request even though
vectorStoreId is empty. -/
theorem claim_C2_amended (net : Net) (s : Settings) (name q eid : String)
    (f : FileInfo) (hist : List ChatMessage) (now : Int) (uuid : String)
    (hbad : s.apiKey = "" ∨ s.vectorStoreId = "") :
    (∃ e, listFiles net s now = (.ok (.err e), [])) ∧
    (∃ e, uploadFile net s f now = (.ok (.err e), [])) ∧
    (∃ e, replaceFile net s eid f now = (.ok (.err e), [])) ∧
    (∃ e, deleteFile net s eid = (.ok (.err e), [])) ∧
    (∃ e, askQuestion net s q hist now uuid = (.ok (.err e), [])) ∧
    (s.apiKey = "" → ∃ m, createVectorStore net name s = (.error m, [])) ∧
    (s.apiKey ≠ "" → jsTrim name ≠ "" → (createVectorStore net name s).snd = [cvsReq]) := by
  have hup : ∃ e, uploadFile net s f now = (.ok (.err e), []) := by
    rcases hbad with h | h
    · exact ⟨.str "Missing API key", by simp [uploadFile, h]⟩
    · by_cases hk : s.apiKey = ""
      · exact ⟨.str "Missing API key", by simp [uploadFile, hk]⟩
      · exact ⟨.str "Missing vector store id", by simp [uploadFile, hk, h]⟩
  refine ⟨?_, hup, ?_, ?_, ?_, ?_, ?_⟩
  · rcases hbad with h | h
    · exact ⟨.str "Missing API key", by simp [listFiles, h]⟩
    · by_cases hk : s.apiKey = ""
      · exact ⟨.str "Missing API key", by simp [listFiles, hk]⟩
      · exact ⟨.str "Missing vector store id", by simp [listFiles, hk, h]⟩
  · obtain ⟨e, he⟩ := hup
    exact ⟨e, by simp [replaceFile, he]⟩
  · rcases hbad with h | h
    · exact ⟨.str "Missing API key", by simp [deleteFile, h]⟩
    · by_cases hk : s.apiKey = ""
      · exact ⟨.str "Missing API key", by simp [deleteFile, hk]⟩
      · exact ⟨.str "Missing vector store id", by simp [deleteFile, hk, h]⟩
  · by_cases hq : jsTrim q = ""
    · exact ⟨.str "Question is empty", by simp [askQuestion, hq]⟩
    · rcases hbad with h | h
      · exact ⟨.str "Missing API key", by simp [askQuestion, hq, h]⟩
      · by_cases hk : s.apiKey = ""
        · exact ⟨.str "Missing API key", by simp [askQuestion, hq, hk]⟩
        · exact ⟨.str "Missing vector store id", by simp [askQuestion, hq, hk, h]⟩
  · exact fun hk => createVectorStore_throws net name s (.inr hk)
  · exact fun hk hn => createVectorStore_run net name s hn hk

/-- C2 witness: the amended statement at all-empty credentials. -/
theorem claim_C2_witness :
    (∃ e, listFiles c1net ⟨"", "m", ""⟩ 0 = (.ok (.err e), [])) ∧
    (∃ e, uploadFile c1net ⟨"", "m", ""⟩ ⟨"doc.txt", 3⟩ 0 = (.ok (.err e), [])) ∧
    (∃ e, replaceFile c1net ⟨"", "m", ""⟩ "old" ⟨"doc.txt", 3⟩ 0 = (.ok (.err e), [])) ∧
    (∃ e, deleteFile c1net ⟨"", "m", ""⟩ "old" = (.ok (.err e), [])) ∧
    (∃ e, askQuestion c1net ⟨"", "m", ""⟩ "why?" [] 0 "uid" = (.ok (.err e), [])) ∧
    (Settings.apiKey ⟨"", "m", ""⟩ = "" →
      ∃ m, createVectorStore c1net "store" ⟨"", "m", ""⟩ = (.error m, [])) ∧
    (Settings.apiKey ⟨"", "m", ""⟩ ≠ "" → jsTrim "store" ≠ "" →
      (createVectorStore c1net "store" ⟨"", "m", ""⟩).snd = [cvsReq]) :=
  claim_C2_amended c1net ⟨"", "m", ""⟩ "store" "why?" "old" ⟨"doc.txt", 3⟩ [] 0 "uid"
    (Or.inl rfl)

def c3settings : Settings := ⟨"k", "m", "vs"⟩

/-- Upload succeeds, but the delete response is a 2xx whose body does not
parse. -/
def c3net : Net := fun r =>
  if r = filesReq then ⟨200, "OK", some (.obj [("id", .str "file-1")])⟩
  else if r = attachReq c3settings then
    ⟨200, "OK", some (.obj [("id", .str "assoc-1"), ("status", .str "completed")])⟩
  else ⟨200, "OK", none⟩

/-- C3 counterexample: with a successful upload and a delete whose 2xx
response body does not parse, replaceFile does not return the upload's
success result — the delete's parse exception propagates out of the
unguarded await. -/
theorem claim_C3_counterexample :
    (uploadFile c3net c3settings ⟨"doc.txt", 5⟩ 0).fst =
      .ok (.ok ⟨some (.str "assoc-1"), some (.str "doc.txt"), some (.num 5),
        some (.str "completed"), some (.num 0), none⟩) ∧
    (replaceFile c3net c3settings "old" ⟨"doc.txt", 5⟩ 0).fst =
      .error "SyntaxError: Unexpected end of JSON input" :=
  ⟨rfl, rfl⟩

/-- C3 amended: replaceFile uploads first; a failed upload is returned
as-is with no delete request ever issued; a successful upload whose
trailing delete call completes with an ApiResult (success or failure)
returns the upload's success result, the delete request coming after the
upload's requests — but a delete call that throws propagates. -/
theorem claim_C3_amended (net : Net) (s : Settings) (eid : String)
    (f : FileInfo) (now : Int) :
    (∀ e reqs, uploadFile net s f now = (.ok (.err e), reqs) →
        replaceFile net s eid f now = (.ok (.err e), reqs) ∧ delReq s eid ∉ reqs) ∧
    (∀ kf reqs r, uploadFile net s f now = (.ok (.ok kf), reqs) →
        (deleteFile net s eid).fst = .ok r →
        replaceFile net s eid f now = (.ok (.ok kf), reqs ++ [delReq s eid])) :=
  ⟨fun e reqs h => replaceFile_upload_err net s eid f now e reqs h,
   fun kf reqs r h hd => replaceFile_upload_ok net s eid f now kf reqs r h hd⟩

/-- An oracle on which both upload steps and the delete parse fine. -/
def c3goodnet : Net := fun _ => ⟨200, "OK", some (.obj [("id", .str "x")])⟩

/-- C3 witness: on the good oracle, replaceFile returns the upload's
success result and issues the delete request after the upload's. -/
theorem claim_C3_witness :
    replaceFile c3goodnet c3settings "old" ⟨"doc.txt", 5⟩ 0 =
      (.ok (.ok ⟨some (.str "x"), some (.str "doc.txt"), some (.num 5),
        some (.str "in_progress"), some (.num 0), none⟩),
        [filesReq, attachReq c3settings] ++ [delReq c3settings "old"]) :=
  (claim_C3_amended c3goodnet c3settings "old" ⟨"doc.txt", 5⟩ 0).2
    ⟨some (.str "x"), some (.str "doc.txt"), some (.num 5),
      some (.str "in_progress"), some (.num 0), none⟩
    [filesReq, attachReq c3settings] (.ok true) rfl rfl
